import Mathlib

/-!
Verification of the Telegram multi-account HTTP service
(`src/telegram_bot.py`) against its natural-language specification.

Python strings are modelled as `List Char` (ASCII; `str.isdigit` is
modelled by `Char.isDigit`, i.e. the decimal digits `'0'`-`'9'`).
Python `int` is modelled by `Int` (unbounded, as in Python).
Code that can raise `ValueError` is modelled with `Option`.
Network calls made through the external telethon library are modelled
as explicit oracle parameters of the request handlers.
-/

namespace TelegramBot

set_option maxRecDepth 4000

/-- `str.isdigit` on a single character: an ASCII decimal digit. -/
def isPyDigit (c : Char) : Bool := c.isDigit

/-- Python `s.isdigit()`: `s` is nonempty and every character is a digit. -/
def isdigit (cs : List Char) : Bool := !cs.isEmpty && cs.all isPyDigit

/-- Numeric value of a list of decimal digit characters (most significant first). -/
def digitsVal (cs : List Char) : Nat := cs.foldl (fun a c => 10 * a + (c.toNat - 48)) 0

/-- Python `int(s)` on an already-stripped string: an optional single sign
followed by one or more decimal digits; anything else raises `ValueError`
(modelled as `none`).  In particular `int` on a string with more than one
leading `-` (e.g. `"--100"`) or on the empty string fails. -/
def pyInt (cs : List Char) : Option Int :=
  match cs with
  | [] => none
  | c :: rest =>
    if c = '-' then
      if isdigit rest then some (-(digitsVal rest : Int)) else none
    else if c = '+' then
      if isdigit rest then some ((digitsVal rest : Int)) else none
    else if isdigit (c :: rest) then some ((digitsVal (c :: rest) : Int)) else none

/-- Python `s.lstrip("-")`: drop every leading `'-'`. -/
def lstripMinus (cs : List Char) : List Char := cs.dropWhile (fun c => c = '-')

/-- Python `s.strip()`: drop leading and trailing whitespace. -/
def pyStrip (cs : List Char) : List Char :=
  ((cs.dropWhile Char.isWhitespace).reverse.dropWhile Char.isWhitespace).reverse

/-- Decimal digit characters of a natural number, accumulator-and-fuel
formulation (the fuel `n + 1` always suffices, since the argument shrinks
by a factor of 10 each step). -/
def natDecGo : Nat → Nat → List Char → List Char
  | 0, _, acc => acc
  | fuel + 1, n, acc =>
    if n < 10 then Char.ofNat (48 + n) :: acc
    else natDecGo fuel (n / 10) (Char.ofNat (48 + n % 10) :: acc)

/-- Decimal digit characters of a natural number (Python `str`). -/
def natDec (n : Nat) : List Char := natDecGo (n + 1) n []

/-- Python `str` of an `int`: a `'-'` sign for negative values, then the
decimal digits of the absolute value. -/
def intDec (n : Int) : List Char :=
  if n < 0 then '-' :: natDec n.natAbs else natDec n.toNat

/-- A value of Python type `Union[str, int]`: the `target` handled by the
`/export_members` normalization (a username / numeric string, or an id). -/
inductive Tgt
  | s (cs : List Char)
  | i (n : Int)
deriving DecidableEq

/-- The `/export_members` target normalization,
`src/telegram_bot.py` lines 317-325:

    if isinstance(target, str):
        t = target.strip()
        if t.startswith("-100") and t[4:].isdigit():
            target = int(t[4:])
        elif t.lstrip("-").isdigit():
            target = int(t)
    elif isinstance(target, int) and str(target).startswith("-100"):
        target = int(str(target)[4:])

`none` models a `ValueError` escaping from `int(...)`. Note that when no
branch fires the original (unstripped) `target` is kept. -/
def normalize (target : Tgt) : Option Tgt :=
  match target with
  | .s sv =>
    let t := pyStrip sv
    if (['-', '1', '0', '0'] : List Char).isPrefixOf t && isdigit (t.drop 4) then
      (pyInt (t.drop 4)).map .i
    else if isdigit (lstripMinus t) then
      (pyInt t).map .i
    else
      some (.s sv)
  | .i n =>
    if (['-', '1', '0', '0'] : List Char).isPrefixOf (intDec n) then
      (pyInt ((intDec n).drop 4)).map .i
    else
      some (.i n)

/-! ### Lemmas about the decimal representation -/

theorem natDecGo_fuel (f : Nat) : ∀ g n acc, n < f → n < g →
    natDecGo f n acc = natDecGo g n acc := by
  induction f with
  | zero => intro g n acc hf _; omega
  | succ f ih =>
    intro g n acc hf hg
    cases g with
    | zero => omega
    | succ g =>
      by_cases h10 : n < 10
      · simp [natDecGo, h10]
      · have hdiv : n / 10 < n := Nat.div_lt_self (by omega) (by omega)
        simp only [natDecGo, h10, if_false]
        exact ih g (n / 10) _ (by omega) (by omega)

theorem natDecGo_append (f : Nat) : ∀ n acc,
    natDecGo f n acc = natDecGo f n [] ++ acc := by
  induction f with
  | zero => intro n acc; simp [natDecGo]
  | succ f ih =>
    intro n acc
    by_cases h10 : n < 10
    · simp [natDecGo, h10]
    · simp only [natDecGo, h10, if_false]
      rw [ih (n / 10) (Char.ofNat (48 + n % 10) :: acc),
        ih (n / 10) [Char.ofNat (48 + n % 10)], List.append_assoc]
      rfl

theorem natDec_unfold (n : Nat) : natDec n =
    if n < 10 then [Char.ofNat (48 + n)]
    else natDec (n / 10) ++ [Char.ofNat (48 + n % 10)] := by
  by_cases h10 : n < 10
  · simp [natDec, natDecGo, h10]
  · have hdiv : n / 10 < n := Nat.div_lt_self (by omega) (by omega)
    have h1 : natDec n = natDecGo n (n / 10) [Char.ofNat (48 + n % 10)] := by
      simp [natDec, natDecGo, h10]
    rw [if_neg h10, h1,
      natDecGo_fuel n (n / 10 + 1) (n / 10) _ (by omega) (by omega),
      natDecGo_append]
    rfl

theorem isPyDigit_ofNat {d : Nat} (h : d < 10) :
    isPyDigit (Char.ofNat (48 + d)) = true := by
  interval_cases d <;> decide

theorem toNat_ofNat_digit {d : Nat} (h : d < 10) :
    (Char.ofNat (48 + d)).toNat = 48 + d := by
  interval_cases d <;> decide

theorem natDec_ne_nil (n : Nat) : natDec n ≠ [] := by
  rw [natDec_unfold]
  split <;> simp

theorem natDec_all_digit (n : Nat) : (natDec n).all isPyDigit = true := by
  induction n using Nat.strong_induction_on with
  | _ n ih =>
    rw [natDec_unfold]
    by_cases h10 : n < 10
    · simp [h10, isPyDigit_ofNat h10]
    · have hdiv : n / 10 < n := Nat.div_lt_self (by omega) (by omega)
      have hmod : n % 10 < 10 := Nat.mod_lt _ (by omega)
      simp [h10, List.all_append, ih (n / 10) hdiv, isPyDigit_ofNat hmod]

theorem digitsVal_append (xs : List Char) (c : Char) :
    digitsVal (xs ++ [c]) = 10 * digitsVal xs + (c.toNat - 48) := by
  simp [digitsVal, List.foldl_append]

theorem digitsVal_natDec (n : Nat) : digitsVal (natDec n) = n := by
  induction n using Nat.strong_induction_on with
  | _ n ih =>
    rw [natDec_unfold]
    by_cases h10 : n < 10
    · simp [h10, digitsVal, toNat_ofNat_digit h10]
    · have hdiv : n / 10 < n := Nat.div_lt_self (by omega) (by omega)
      have hmod : n % 10 < 10 := Nat.mod_lt _ (by omega)
      rw [if_neg h10, digitsVal_append, ih (n / 10) hdiv, toNat_ofNat_digit hmod]
      omega

theorem digit_ne_minus {c : Char} (h : isPyDigit c = true) : ¬ c = '-' := by
  intro he; subst he; exact absurd h (by decide)

theorem digit_ne_plus {c : Char} (h : isPyDigit c = true) : ¬ c = '+' := by
  intro he; subst he; exact absurd h (by decide)

/-- `int(s)` succeeds on a nonempty all-digit string and returns its value. -/
theorem pyInt_digits {cs : List Char} (hne : cs ≠ [])
    (hall : cs.all isPyDigit = true) : pyInt cs = some (digitsVal cs : Int) := by
  cases cs with
  | nil => exact absurd rfl hne
  | cons c rest =>
    have hc : isPyDigit c = true := by
      simp [List.all_cons] at hall; exact hall.1
    have hd : isdigit (c :: rest) = true := by
      simp [isdigit, List.all_cons, hall]
    simp [pyInt, digit_ne_minus hc, digit_ne_plus hc, hd]

/-- Structure of a string that `startswith("-100")`. -/
theorem pref100_struct {cs : List Char}
    (h : (['-', '1', '0', '0'] : List Char).isPrefixOf cs = true) :
    ∃ rest, cs = '-' :: '1' :: '0' :: '0' :: rest := by
  rcases cs with _ | ⟨a, _ | ⟨b, _ | ⟨c, _ | ⟨d, rest⟩⟩⟩⟩ <;>
    simp [List.isPrefixOf] at h
  obtain ⟨ha, hb, hc, hd⟩ := h
  subst ha; subst hb; subst hc; subst hd
  exact ⟨rest, rfl⟩

theorem pref100_intro (rest : List Char) :
    (['-', '1', '0', '0'] : List Char).isPrefixOf ('-' :: '1' :: '0' :: '0' :: rest) = true := by
  simp [List.isPrefixOf]

/-- A string whose first character is a digit does not start with `"-100"`. -/
theorem pref100_head_digit {c : Char} {rest : List Char} (hc : isPyDigit c = true) :
    (['-', '1', '0', '0'] : List Char).isPrefixOf (c :: rest) = false := by
  simp [List.isPrefixOf]
  intro he
  exact absurd he.symm (digit_ne_minus hc)

theorem intDec_neg {n : Int} (h : n < 0) : intDec n = '-' :: natDec n.natAbs := by
  simp [intDec, h]

theorem intDec_nonneg {n : Int} (h : ¬ n < 0) : intDec n = natDec n.toNat := by
  simp [intDec, h]

/-- Core of claim C10: the integer branch of the normalization raises
`ValueError` exactly at `-100` (where `int(str(-100)[4:])` is `int("")`). -/
theorem normalize_int_none_iff (n : Int) : normalize (.i n) = none ↔ n = -100 := by
  constructor
  · intro h
    by_cases hp : (['-', '1', '0', '0'] : List Char).isPrefixOf (intDec n) = true
    · obtain ⟨rest, hrest⟩ := pref100_struct hp
      have hneg : n < 0 := by
        by_contra hge
        have hall := natDec_all_digit n.toNat
        rw [← intDec_nonneg hge, hrest] at hall
        simp [List.all_cons, isPyDigit] at hall
      have hnat : natDec n.natAbs = '1' :: '0' :: '0' :: rest := by
        have := (intDec_neg hneg).symm.trans hrest
        exact List.cons.inj this |>.2
      have habs : n.natAbs = digitsVal ('1' :: '0' :: '0' :: rest) := by
        rw [← hnat, digitsVal_natDec]
      have hdrop : (intDec n).drop 4 = rest := by rw [hrest]; rfl
      rw [normalize, hp] at h
      simp only [if_true, hdrop] at h
      cases rest with
      | nil =>
        have : n.natAbs = 100 := by rw [habs]; decide
        omega
      | cons c cs =>
        have hall : (c :: cs).all isPyDigit = true := by
          have h2 := natDec_all_digit n.natAbs
          rw [hnat] at h2
          simp only [List.all_cons, Bool.and_eq_true] at h2
          simp only [List.all_cons, Bool.and_eq_true]
          exact ⟨h2.2.2.2.1, h2.2.2.2.2⟩
        rw [pyInt_digits (by simp) hall] at h
        simp at h
    · rw [normalize] at h
      simp only [Bool.not_eq_true] at hp
      rw [hp] at h
      simp at h
  · intro h; subst h; decide

/-! ### Request handlers

The HTTP handlers of `src/telegram_bot.py`, shallowly embedded.  A handler
is a pure function of the process state (the keys of `ACTIVE_CLIENTS`, the
`PENDING_AUTH` dict) and of oracles standing for the network operations of
the external telethon library.  `HResp` is the JSON response produced by
FastAPI: either a success body or an `HTTPException` status + detail. -/

/-- An exception reaching the final `except Exception` clause of a handler
(re-raised as `HTTPException(500, detail=str(e))`). -/
inductive CaughtExc
  | httpExc422MissingTarget  -- the handler's own HTTPException(422, "Передай group или chat_id")
  | valueErrorInt            -- ValueError from int(...) during target normalization
  | nameErrorUser            -- NameError: name 'User' is not defined (dialogs loop body)
  | otherExc                 -- any other external-library failure
deriving DecidableEq

/-- The `detail` of an error response. -/
inductive ErrDetail
  | accountNotFound (account : List Char)  -- "Аккаунт не найден: ..."
  | caught (e : CaughtExc)                 -- detail=str(e) of a caught exception
  | privacyRestricted                      -- 403 privacy message
  | floodWait (seconds : Nat)              -- "FloodWait: wait N seconds"
  | startNotCalled                         -- "Сначала вызови /auth/start"
deriving DecidableEq

/-- An HTTP response: a JSON success body, or an HTTPException. -/
inductive HResp (α : Type)
  | ok (body : α)
  | err (status : Nat) (detail : ErrDetail)
deriving DecidableEq

/-! #### /export_members -/

/-- Request body of POST /export_members (`ExportMembersReq`, lines 55-60).
The model has exactly the fields of the source: `account`, optional
`group` (str or int) and optional `chat_id` (int) — no limit or offset. -/
structure ExportMembersReq where
  account : List Char
  group : Option Tgt := none
  chat_id : Option Int := none
deriving DecidableEq

/-- The `.participant` attribute of a channel participant, when present:
`admin_rights` records `hasattr(participant, "admin_rights") and
participant.admin_rights` (presence and truthiness); `rank` / `title` are
`getattr(participant, ..., None)`. -/
structure ChanPart where
  admin_rights : Bool
  rank : Option (List Char) := none
  title : Option (List Char) := none
deriving DecidableEq

/-- A participant object returned by `client.get_participants`.  Optional
attributes probed with `hasattr` are `Option`s (absent or `None` collapse
to `none`); flag attributes absent on an object are modelled `false`. -/
structure Participant where
  id : Int
  participant : Option ChanPart := none
  admin_rights : Bool := false
  username : Option (List Char) := none
  first_name : Option (List Char) := none
  last_name : Option (List Char) := none
  phone : Option (List Char) := none
  bot : Bool := false
  self : Bool := false
  contact : Bool := false
  mutual_contact : Bool := false
  deleted : Bool := false
  verified : Bool := false
  restricted : Bool := false
  scam : Bool := false
  fake : Bool := false
deriving DecidableEq

/-- One `member_data` dict built by the export loop (lines 350-367). -/
structure Member where
  id : Int
  username : Option (List Char)
  first_name : List Char
  last_name : List Char
  phone : Option (List Char)
  is_admin : Bool
  admin_title : Option (List Char)
  is_bot : Bool
  is_self : Bool
  is_contact : Bool
  is_mutual_contact : Bool
  is_deleted : Bool
  is_verified : Bool
  is_restricted : Bool
  is_scam : Bool
  is_fake : Bool
deriving DecidableEq

/-- Python truthiness filter used by `x if ... and x else None`:
an empty string is falsy. -/
def truthyOpt (a : Option (List Char)) : Option (List Char) :=
  match a with
  | some s => if s = [] then none else some s
  | none => none

/-- Python `a or b` on optional strings: `b` when `a` is falsy. -/
def pyOrOpt (a b : Option (List Char)) : Option (List Char) :=
  match truthyOpt a with
  | some s => some s
  | none => b

/-- Body of the export loop (lines 332-368): one `member_data` per
participant, with the two-step admin detection. -/
def memberOf (p : Participant) : Member :=
  let adminInfo : Bool × Option (List Char) :=
    match p.participant with
    | some cp => if cp.admin_rights then (true, pyOrOpt cp.rank cp.title) else (false, none)
    | none => (false, none)
  -- second check: "if not is_admin and hasattr(p, 'admin_rights') and p.admin_rights"
  let is_admin := adminInfo.1 || p.admin_rights
  { id := p.id
    username := truthyOpt p.username
    first_name := (truthyOpt p.first_name).getD []
    last_name := (truthyOpt p.last_name).getD []
    phone := truthyOpt p.phone
    is_admin := is_admin
    admin_title := adminInfo.2
    is_bot := p.bot
    is_self := p.self
    is_contact := p.contact
    is_mutual_contact := p.mutual_contact
    is_deleted := p.deleted
    is_verified := p.verified
    is_restricted := p.restricted
    is_scam := p.scam
    is_fake := p.fake }

/-- Success body of /export_members: `{"ok": True, "count": ..., "members": ...}`. -/
structure ExportBody where
  count : Nat
  members : List Member
deriving DecidableEq

/-- Errors the network oracle (get_entity + get_participants) can signal,
matching the handler's except clauses. -/
inductive NetErr
  | privacyRestricted
  | floodWait (seconds : Nat)
  | otherExc
deriving DecidableEq

/-- POST /export_members (lines 304-377).  `active` is the key set of
`ACTIVE_CLIENTS`; `net` is the external-library oracle performing
`get_entity` + `get_participants` on the normalized target.  Note that the
account lookup happens first, outside the `try`, and that the handler's
own `HTTPException(422, ...)` for a missing target as well as a
`ValueError` from the normalization are swallowed by the final
`except Exception` clause and re-raised as status 500. -/
def export_members (active : List (List Char)) (req : ExportMembersReq)
    (net : Tgt → Except NetErr (List Participant)) : HResp ExportBody :=
  if req.account ∈ active then
    match (match req.chat_id with | some n => some (Tgt.i n) | none => req.group) with
    | none => .err 500 (.caught .httpExc422MissingTarget)
    | some target =>
      if target = Tgt.s [] then .err 500 (.caught .httpExc422MissingTarget)
      else
        match normalize target with
        | none => .err 500 (.caught .valueErrorInt)
        | some t =>
          match net t with
          | .ok ps => .ok ⟨(ps.map memberOf).length, ps.map memberOf⟩
          | .error .privacyRestricted => .err 403 .privacyRestricted
          | .error (.floodWait s) => .err 429 (.floodWait s)
          | .error .otherExc => .err 500 (.caught .otherExc)
  else .err 400 (.accountNotFound req.account)

/-! #### /dialogs -/

/-- Request body of POST /dialogs (`GetDialogsReq`, lines 74-77):
`limit` defaults to 50 in the source. -/
structure GetDialogsReq where
  account : List Char
  limit : Int := 50
  include_folders : Bool := true
deriving DecidableEq

/-- Pydantic construction of a `GetDialogsReq` from a JSON body in which
`limit` / `include_folders` may be omitted (defaults applied). -/
def mkGetDialogsReq (account : List Char) (limit : Option Int)
    (include_folders : Option Bool) : GetDialogsReq :=
  ⟨account, limit.getD 50, include_folders.getD true⟩

/-- A dialog yielded by `client.iter_dialogs`. -/
structure DialogEnt where
  id : Int
  name : List Char
  username : Option (List Char) := none
deriving DecidableEq

/-- One `DialogInfo` dict (lines 283-293); the loop body never completes,
so no value of this type is ever produced for a non-empty dialog list. -/
structure DialogInfo where
  id : Int
  title : List Char
  username : Option (List Char)
  is_group : Bool
  is_channel : Bool
  is_user : Bool
  unread_count : Int
deriving DecidableEq

/-- Errors the `iter_dialogs` oracle can signal. -/
inductive IterErr
  | floodWait (seconds : Nat)
  | otherExc
deriving DecidableEq

/-- POST /dialogs (lines 259-300).  The account is resolved first, outside
the `try` (`_client_by_account`, 400 on unknown).  `req.limit` is passed to
`iter_dialogs` unchanged.  For every dialog yielded, the loop body reaches
`isinstance(entity, User)` (line 271) — but `User`, `Chat` and `Channel`
are never imported (lines 4-10 import only `PeerUser`/`PeerChannel`/
`PeerChat`), so the body raises `NameError`, which the `except Exception`
clause converts into a 500 response.  Only an empty dialog list returns
successfully. -/
def dialogs (active : List (List Char)) (req : GetDialogsReq)
    (iter : Int → Except IterErr (List DialogEnt)) : HResp (List DialogInfo) :=
  if req.account ∈ active then
    match iter req.limit with
    | .ok [] => .ok []
    | .ok (_ :: _) => .err 500 (.caught .nameErrorUser)
    | .error (.floodWait s) => .err 429 (.floodWait s)
    | .error .otherExc => .err 500 (.caught .otherExc)
  else .err 400 (.accountNotFound req.account)

/-! #### /auth/confirm -/

/-- One `PENDING_AUTH` record (set up by /auth/start, lines 178-183). -/
structure PendingInfo where
  session_str : List Char
  phone_code_hash : List Char
  needs_2fa : Bool
  name : List Char
deriving DecidableEq

/-- Mutable process state touched by the auth flow: the key set of
`ACTIVE_CLIENTS` and the `PENDING_AUTH` dict (an association list with
Python-dict update semantics). -/
structure BotState where
  active : List (List Char)
  pending : List ((List Char) × PendingInfo)
deriving DecidableEq

/-- Python `d.get(k)` on the pending dict. -/
def alookup (m : List ((List Char) × PendingInfo)) (k : List Char) : Option PendingInfo :=
  match m with
  | [] => none
  | (k₁, v) :: rest => if k₁ = k then some v else alookup rest k

/-- Python `d[k] = v`: replace in place, or append when absent. -/
def dset (m : List ((List Char) × PendingInfo)) (k : List Char) (v : PendingInfo) :
    List ((List Char) × PendingInfo) :=
  match m with
  | [] => [(k, v)]
  | (k₁, v₁) :: rest => if k₁ = k then (k, v) :: rest else (k₁, v₁) :: dset rest k v

/-- Python `d.pop(k, None)`. -/
def dpop (m : List ((List Char) × PendingInfo)) (k : List Char) :
    List ((List Char) × PendingInfo) :=
  match m with
  | [] => []
  | (k₁, v₁) :: rest => if k₁ = k then rest else (k₁, v₁) :: dpop rest k

/-- `ACTIVE_CLIENTS[name] = client` (only the key set is tracked). -/
def addActive (name : List Char) (l : List (List Char)) : List (List Char) :=
  if name ∈ l then l else l ++ [name]

/-- `_norm_phone` (lines 120-124): strip, then ensure a leading `"+"`. -/
def norm_phone (phone : List Char) : List Char :=
  let p := pyStrip phone
  match p with
  | '+' :: _ => p
  | _ => '+' :: p

/-- Python `a or b` where `b` is a plain string: `b` when `a` is absent or empty. -/
def pyOrS (a : Option (List Char)) (b : List Char) : List Char :=
  match a with
  | some s => if s = [] then b else s
  | none => b

/-- Request body of POST /auth/confirm (`AuthConfirmReq`, lines 45-48). -/
structure AuthConfirmReq where
  phone : List Char
  code : List Char
  name : Option (List Char) := none
deriving DecidableEq

/-- Outcome of `client.sign_in(phone=..., code=..., phone_code_hash=...)`:
the exceptions the external library can raise.  Only the first two are
distinguished by the handler; the last three all strike the unimported
`PhoneCodeInvalidError` clause (see `auth_confirm`). -/
inductive SignInOutcome
  | ok
  | sessionPasswordNeeded
  | phoneCodeInvalid
  | floodWait (seconds : Nat)
  | otherExc
deriving DecidableEq

/-- Response of /auth/confirm. `uncaughtNameError`: an exception escaped
the handler itself (FastAPI then produces a 500 Internal Server Error). -/
inductive AuthConfirmOut
  | success (account : List Char)     -- 200 {"ok": True, "account": ..., "session_string": ...}
  | needs2fa                          -- 200 {"ok": False, "needs_2fa": True, ...}
  | httpError (status : Nat) (detail : ErrDetail)
  | uncaughtNameError
deriving DecidableEq

/-- Is the response an error (an HTTPException or an escaped exception)? -/
def isErrorOut (o : AuthConfirmOut) : Bool :=
  match o with
  | .httpError _ _ => true
  | .uncaughtNameError => true
  | _ => false

/-- Result of one /auth/confirm call: new state, response, and whether the
connection reopened by the handler was `disconnect()`ed before returning
(on success it is intentionally kept open and stored). -/
structure AuthStepResult where
  state : BotState
  out : AuthConfirmOut
  disconnectCalled : Bool
deriving DecidableEq

/-- POST /auth/confirm (lines 196-228).  `signIn` is the oracle for the
external `sign_in` call.  Faithful quirks of the source:

* there is no `needs_2fa` state check — the handler re-attempts sign-in
  even when the pending record is awaiting a second factor;
* on `SessionPasswordNeededError` (the first except clause, line 216) the
  pending record's `needs_2fa` flag is set and a 200
  `{"ok": False, "needs_2fa": True}` body is returned;
* the next clause, `except PhoneCodeInvalidError` (line 220), names a
  class that is never imported (line 10 imports only
  `SessionPasswordNeededError`, `FloodWaitError`,
  `PhoneNumberInvalidError`, `UserPrivacyRestrictedError`).  Python
  evaluates except-clause headers in order, so EVERY `sign_in` exception
  other than `SessionPasswordNeededError` — an invalid code, a
  `FloodWaitError`, or any other failure — reaches that header, whose
  evaluation raises `NameError`; the `NameError` escapes the whole `try`
  statement (the later `except FloodWaitError` and `except Exception`
  clauses never run), the handler dies with an uncaught exception,
  `client.disconnect()` is never called, and the pending record is left
  as it was. -/
def auth_confirm (st : BotState) (req : AuthConfirmReq) (signIn : SignInOutcome) :
    AuthStepResult :=
  let phone := norm_phone req.phone
  match alookup st.pending phone with
  | none => ⟨st, .httpError 400 .startNotCalled, false⟩
  | some info =>
    let name := pyOrS req.name (pyOrS (some info.name) phone)
    match signIn with
    | .ok => ⟨⟨addActive name st.active, dpop st.pending phone⟩, .success name, false⟩
    | .sessionPasswordNeeded =>
      ⟨⟨st.active, dset st.pending phone { info with needs_2fa := true }⟩, .needs2fa, true⟩
    | .phoneCodeInvalid => ⟨st, .uncaughtNameError, false⟩
    | .floodWait _ => ⟨st, .uncaughtNameError, false⟩
    | .otherExc => ⟨st, .uncaughtNameError, false⟩

theorem alookup_dset (m : List ((List Char) × PendingInfo)) (k : List Char) (v : PendingInfo) :
    alookup (dset m k v) k = some v := by
  induction m with
  | nil => simp [dset, alookup]
  | cons h rest ih =>
    obtain ⟨k₁, v₁⟩ := h
    by_cases hk : k₁ = k
    · simp [dset, alookup, hk]
    · simp [dset, alookup, hk, ih]

/-! ### Further helper lemmas -/

theorem isdigit_iff (cs : List Char) :
    isdigit cs = true ↔ cs ≠ [] ∧ cs.all isPyDigit = true := by
  cases cs <;> simp [isdigit]

theorem head_digit_of_all {c : Char} {r : List Char}
    (hall : (c :: r).all isPyDigit = true) : isPyDigit c = true := by
  simp only [List.all_cons, Bool.and_eq_true] at hall
  exact hall.1

/-- `lstrip("-")` on `'-'` followed by digits yields just the digits. -/
theorem lstrip_minus_digits {ds : List Char} (hne : ds ≠ [])
    (hall : ds.all isPyDigit = true) : lstripMinus ('-' :: ds) = ds := by
  cases ds with
  | nil => exact absurd rfl hne
  | cons c r =>
    have hc := head_digit_of_all hall
    simp [lstripMinus, List.dropWhile, digit_ne_minus hc]

/-- `lstrip("-")` is the identity on a string starting with a digit. -/
theorem lstrip_minus_id {c : Char} {r : List Char} (hc : isPyDigit c = true) :
    lstripMinus (c :: r) = c :: r := by
  simp [lstripMinus, List.dropWhile, digit_ne_minus hc]

/-! ### Claims -/

/-- C1: the export_members target normalization satisfies the spec's four
examples: `normalize("-1001450445959") = 1450445959`,
`normalize(1450445959) = 1450445959`,
`normalize("some_group") = "some_group"`, and
`normalize("1450445959") = 1450445959`. -/
theorem c1_normalize_examples :
    normalize (.s "-1001450445959".data) = some (.i 1450445959) ∧
    normalize (.i 1450445959) = some (.i 1450445959) ∧
    normalize (.s "some_group".data) = some (.s "some_group".data) ∧
    normalize (.s "1450445959".data) = some (.i 1450445959) := by
  decide

/-- C2 counterexample: the normalization is not idempotent for every
input.  For the numeric string `"-01001"` (digits with a leading zero
after the minus) one application yields the integer `-1001`, whose decimal
form begins with `-100`, so a second application strips the prefix and
yields `1`. -/
theorem c2_counterexample :
    (normalize (.s "-01001".data)).bind normalize ≠ normalize (.s "-01001".data) := by
  decide

/-- C2 (amended): the normalization step is idempotent for every input
whose (successful) normalization result is not an integer whose decimal
representation begins with `"-100"`. -/
theorem c2_idempotent_unless_result_minus100 (t r : Tgt)
    (h : normalize t = some r)
    (hb : ∀ n : Int, r = Tgt.i n →
      (['-', '1', '0', '0'] : List Char).isPrefixOf (intDec n) = false) :
    normalize r = some r := by
  cases r with
  | i n =>
    have hp := hb n rfl
    simp [normalize, hp]
  | s cs =>
    cases t with
    | i m =>
      exfalso
      simp only [normalize] at h
      by_cases hp : (['-', '1', '0', '0'] : List Char).isPrefixOf (intDec m) = true
      · simp [hp, Option.map_eq_some'] at h
      · simp only [Bool.not_eq_true] at hp
        simp [hp] at h
    | s sv =>
      simp only [normalize] at h ⊢
      by_cases h1 : (((['-', '1', '0', '0'] : List Char).isPrefixOf (pyStrip sv)) &&
          isdigit ((pyStrip sv).drop 4)) = true
      · simp [h1, Option.map_eq_some'] at h
      · by_cases h2 : isdigit (lstripMinus (pyStrip sv)) = true
        · simp [h1, h2, Option.map_eq_some'] at h
        · simp only [Bool.not_eq_true] at h1 h2
          simp only [h1, h2, Bool.false_eq_true, if_false, Option.some.injEq] at h
          obtain rfl : sv = cs := by
            cases h; rfl
          simp [h1, h2]

/-- C2 witness: the amended idempotence applied at the numeric string
`"42"`, whose result `42` does not begin with `-100`. -/
theorem c2_witness : normalize (Tgt.i 42) = some (Tgt.i 42) :=
  c2_idempotent_unless_result_minus100 (Tgt.s ['4', '2']) (Tgt.i 42) (by decide)
    (fun n hn => by
      injection hn with h
      subst h
      decide)

/-- C3 counterexample: for the string `"-01001"` — all digits after one
leading minus — the claim requires the parsed integer `-1001` to have its
`-100` prefix recursively stripped (yielding `1`), but the code's numeric
branch returns the parsed integer as-is: `-1001 ≠ 1`. -/
theorem c3_counterexample :
    normalize (.s "-01001".data) = some (.i (-1001)) ∧ Tgt.i (-1001) ≠ Tgt.i 1 := by
  decide

/-- C3 (amended): for every string target (after `strip()`), the code
behaves as follows — with NO recursive `-100` stripping of parsed
integers: (1) a literal `"-100"` followed by at least one digit has the
prefix stripped once and the (non-negative) remainder returned; (2) any
other string of one leading minus followed by digits is parsed and
returned as-is, even when the value's decimal form begins with `-100`;
(3) a string of plain digits is parsed and returned; (4) any other string
failing both numeric guards is returned unchanged as a username. -/
theorem c3_numeric_branches (sv : List Char) :
    (∀ ds, pyStrip sv = '-' :: '1' :: '0' :: '0' :: ds → isdigit ds = true →
      normalize (.s sv) = some (.i (digitsVal ds))) ∧
    (∀ ds, pyStrip sv = '-' :: ds → isdigit ds = true →
      ((['-', '1', '0', '0'] : List Char).isPrefixOf (pyStrip sv) &&
        isdigit ((pyStrip sv).drop 4)) = false →
      normalize (.s sv) = some (.i (-(digitsVal ds : Int)))) ∧
    (isdigit (pyStrip sv) = true →
      normalize (.s sv) = some (.i (digitsVal (pyStrip sv)))) ∧
    (isdigit (lstripMinus (pyStrip sv)) = false →
      ((['-', '1', '0', '0'] : List Char).isPrefixOf (pyStrip sv) &&
        isdigit ((pyStrip sv).drop 4)) = false →
      normalize (.s sv) = some (.s sv)) := by
  refine ⟨?_, ?_, ?_, ?_⟩
  · intro ds hstrip hds
    obtain ⟨hne, hall⟩ := (isdigit_iff ds).mp hds
    simp [normalize, hstrip, pref100_intro, hds, pyInt_digits hne hall]
  · intro ds hstrip hds hc1
    obtain ⟨hne, hall⟩ := (isdigit_iff ds).mp hds
    rw [hstrip] at hc1
    have hcond : ¬(((['-', '1', '0', '0'] : List Char).isPrefixOf ('-' :: ds) &&
        isdigit (('-' :: ds).drop 4)) = true) := by
      rw [hc1]; exact Bool.false_ne_true
    simp only [normalize]
    rw [hstrip, if_neg hcond, lstrip_minus_digits hne hall, if_pos hds]
    simp [pyInt, hds]
  · intro hd
    cases hs : pyStrip sv with
    | nil => rw [hs] at hd; exact absurd hd (by decide)
    | cons c r =>
      rw [hs] at hd
      obtain ⟨hne, hall⟩ := (isdigit_iff _).mp hd
      have hc := head_digit_of_all hall
      simp [normalize, hs, pref100_head_digit hc, lstrip_minus_id hc, hd,
        pyInt_digits hne hall]
  · intro h2 h1
    simp [normalize, h1, h2]

/-- C3 witness: branch (1) of the amended claim applied at `"-1005"`. -/
theorem c3_witness : normalize (Tgt.s "-1005".data) = some (Tgt.i 5) :=
  (c3_numeric_branches "-1005".data).1 ['5'] (by decide) (by decide)

/-- C4 counterexample: a missing-target /export_members request for a
KNOWN account yields HTTP 500, not the claimed 400 (the handler's own
`HTTPException(422)` is swallowed by `except Exception` and re-raised as
500); and for an unknown account the same request yields 400
account-not-found — i.e. the `ACTIVE_CLIENTS` map is consulted BEFORE the
target check, contrary to the claim. -/
theorem c4_counterexample :
    export_members [['a']] ⟨['a'], none, none⟩ (fun _ => Except.ok []) =
      HResp.err 500 (.caught .httpExc422MissingTarget) ∧
    export_members [] ⟨['a'], none, none⟩ (fun _ => Except.ok []) =
      HResp.err 400 (.accountNotFound ['a']) ∧
    (500 : Nat) ≠ 400 := by
  exact ⟨by decide, by decide, by decide⟩

/-- C4 (amended): for every /export_members request with a known account
and neither `group` nor `chat_id` (or an empty-string target), the request
fails before any network call — the response is the same for every network
oracle — but with HTTP 500 (the 422 missing-target error is converted by
the catch-all), and only after the account map has been consulted (an
unknown account yields 400 account-not-found first). -/
theorem c4_missing_target_500_before_network (active : List (List Char))
    (req : ExportMembersReq) (net : Tgt → Except NetErr (List Participant))
    (h1 : req.account ∈ active) (h2 : req.chat_id = none)
    (h3 : req.group = none ∨ req.group = some (Tgt.s [])) :
    export_members active req net = .err 500 (.caught .httpExc422MissingTarget) := by
  simp only [export_members, if_pos h1, h2]
  rcases h3 with h | h <;> simp [h]

/-- C4 witness: the amended claim applied at a concrete request with
account `"a"` known and no target, under a concrete oracle. -/
theorem c4_witness :
    export_members [['a']] ⟨['a'], none, none⟩ (fun _ => Except.ok [{ id := 7 }]) =
      .err 500 (.caught .httpExc422MissingTarget) :=
  c4_missing_target_500_before_network [['a']] ⟨['a'], none, none⟩
    (fun _ => Except.ok [{ id := 7 }]) (by decide) rfl (Or.inl rfl)

/-- C5 counterexample: the spec's pagination scenario.  `ExportMembersReq`
has no `limit`/`offset` fields, and against a group with four participants
the handler returns all four member records, not the claimed two
(`[u3, u4]`). -/
theorem c5_counterexample :
    export_members [['a']] ⟨['a'], none, some 1450445959⟩
      (fun _ => Except.ok [{ id := 1 }, { id := 2 }, { id := 3 }, { id := 4 }]) =
      HResp.ok ⟨4, [memberOf { id := 1 }, memberOf { id := 2 },
        memberOf { id := 3 }, memberOf { id := 4 }]⟩ ∧
    HResp.ok (α := ExportBody) ⟨4, [memberOf { id := 1 }, memberOf { id := 2 },
        memberOf { id := 3 }, memberOf { id := 4 }]⟩ ≠
      HResp.ok ⟨2, [memberOf { id := 3 }, memberOf { id := 4 }]⟩ := by
  exact ⟨by decide, by decide⟩

/-- C5 (amended): /export_members has no `limit`/`offset` parameters at
all; whenever the account is known, the target normalizes, and the
library returns a participant list, the handler returns one member record
per participant — all participants, in iteration order, with
`count` equal to the full list length. -/
theorem c5_returns_all_participants (active : List (List Char)) (acct : List Char)
    (cid : Int) (net : Tgt → Except NetErr (List Participant)) (t : Tgt)
    (ps : List Participant)
    (h1 : acct ∈ active) (h2 : normalize (Tgt.i cid) = some t) (h3 : net t = .ok ps) :
    export_members active ⟨acct, none, some cid⟩ net = .ok ⟨ps.length, ps.map memberOf⟩ := by
  simp only [export_members, if_pos h1]
  simp [h2, h3]

/-- C5 witness: the amended claim applied at a concrete one-participant
group. -/
theorem c5_witness :
    export_members [['a']] ⟨['a'], none, some 5⟩ (fun _ => Except.ok [{ id := 1 }]) =
      .ok ⟨1, [memberOf { id := 1 }]⟩ :=
  c5_returns_all_participants [['a']] ['a'] 5 (fun _ => Except.ok [{ id := 1 }])
    (Tgt.i 5) [{ id := 1 }] (by decide) (by decide) rfl

/-- C6 counterexample: the /dialogs limit defaults to 50, not 100; and a
limit of 9999 is passed to `iter_dialogs` unclamped — the oracle observes
the raw value 9999 (had the handler clamped to 5000, this oracle would
have returned a non-empty list and the response would have been a 500). -/
theorem c6_counterexample :
    (mkGetDialogsReq ['a'] none none).limit = 50 ∧ (50 : Int) ≠ 100 ∧
    dialogs [['a']] (mkGetDialogsReq ['a'] (some 9999) none)
      (fun l => if l = 9999 then Except.ok [] else Except.ok [⟨1, ['x'], none⟩]) =
      HResp.ok [] := by
  exact ⟨rfl, by decide, by decide⟩

/-- C6 (amended): the /dialogs `limit` defaults to 50 and is passed to the
dialog-listing call unchanged — the handler's behaviour depends on the
`iter_dialogs` oracle only through its value at exactly `req.limit` (no
clamping to 1–5000 and no other adjustment happens). -/
theorem c6_limit_default_50_unclamped :
    (∀ a inc, (mkGetDialogsReq a none inc).limit = 50) ∧
    (∀ (active : List (List Char)) (req : GetDialogsReq)
        (i₁ i₂ : Int → Except IterErr (List DialogEnt)),
      i₁ req.limit = i₂ req.limit → dialogs active req i₁ = dialogs active req i₂) := by
  constructor
  · intro a inc; rfl
  · intro active req i₁ i₂ h
    simp only [dialogs, h]

/-- C6 witness: the amended claim's oracle-agreement part applied to two
concrete oracles that coincide at the requested limit 7. -/
theorem c6_witness :
    dialogs [['a']] (mkGetDialogsReq ['a'] (some 7) none) (fun _ => Except.ok []) =
      dialogs [['a']] (mkGetDialogsReq ['a'] (some 7) none)
        (fun l => if l = 7 then Except.ok [] else Except.ok [⟨1, ['x'], none⟩]) :=
  c6_limit_default_50_unclamped.2 [['a']] (mkGetDialogsReq ['a'] (some 7) none)
    (fun _ => Except.ok [])
    (fun l => if l = 7 then Except.ok [] else Except.ok [⟨1, ['x'], none⟩])
    (by simp [mkGetDialogsReq])

/-- C7: when the external library rejects the login code as invalid, the
handler does NOT close the reopened connection and does NOT return a 400:
the clause `except PhoneCodeInvalidError` names an unimported class, so a
`NameError` escapes the handler (FastAPI then returns 500); only the
pending record being left intact matches the claim.  Evaluation of the
modelled handler at the failing input. -/
theorem c7_invalid_code_name_error :
    auth_confirm ⟨[], [(['+', '7'], ⟨['s'], ['h'], false, ['n']⟩)]⟩
      ⟨['+', '7'], ['0'], none⟩ .phoneCodeInvalid =
      ⟨⟨[], [(['+', '7'], ⟨['s'], ['h'], false, ['n']⟩)]⟩, .uncaughtNameError, false⟩ := by
  decide

/-- C8 counterexample: with a pending login in state `AWAITING_2FA`
(`needs_2fa = true`), a further /auth/confirm call does NOT fail with a
state error — the handler re-attempts sign-in, and when the library again
reports the password requirement the response is the 200 body
`{"ok": false, "needs_2fa": true}`, not an error. -/
theorem c8_counterexample :
    (auth_confirm ⟨[], [(['+', '8'], ⟨['s'], ['h'], true, ['n']⟩)]⟩
        ⟨['+', '8'], ['1'], none⟩ .sessionPasswordNeeded).out = .needs2fa ∧
    isErrorOut (auth_confirm ⟨[], [(['+', '8'], ⟨['s'], ['h'], true, ['n']⟩)]⟩
        ⟨['+', '8'], ['1'], none⟩ .sessionPasswordNeeded).out = false := by
  exact ⟨by decide, by decide⟩

/-- C8 (amended): a further /auth/confirm call on a pending login whose
`needs_2fa` flag is already true is not rejected: there is no state check,
the handler re-attempts sign-in, and when the library again signals that a
password is needed it returns the needs-2fa response (HTTP 200) and leaves
the pending record — in particular its `needs_2fa` flag — unchanged. -/
theorem c8_reconfirm_no_state_error (st : BotState) (req : AuthConfirmReq)
    (info : PendingInfo)
    (h1 : alookup st.pending (norm_phone req.phone) = some info)
    (h2 : info.needs_2fa = true) :
    (auth_confirm st req .sessionPasswordNeeded).out = .needs2fa ∧
    alookup (auth_confirm st req .sessionPasswordNeeded).state.pending
      (norm_phone req.phone) = some info := by
  have hinfo : { info with needs_2fa := true } = info := by
    cases info
    simp_all
  simp [auth_confirm, h1, alookup_dset, hinfo]

/-- C8 witness: the amended claim applied at a concrete state holding one
pending login with `needs_2fa = true`. -/
theorem c8_witness :
    (auth_confirm ⟨[], [(['+', '7'], ⟨['s'], ['h'], true, ['n']⟩)]⟩
        ⟨['+', '7'], ['0'], none⟩ .sessionPasswordNeeded).out = .needs2fa ∧
    alookup (auth_confirm ⟨[], [(['+', '7'], ⟨['s'], ['h'], true, ['n']⟩)]⟩
        ⟨['+', '7'], ['0'], none⟩ .sessionPasswordNeeded).state.pending
      (norm_phone ['+', '7']) = some ⟨['s'], ['h'], true, ['n']⟩ :=
  c8_reconfirm_no_state_error ⟨[], [(['+', '7'], ⟨['s'], ['h'], true, ['n']⟩)]⟩
    ⟨['+', '7'], ['0'], none⟩ ⟨['s'], ['h'], true, ['n']⟩ (by decide) rfl

/-- C9: for every known account whose dialog listing yields at least one
dialog, the /dialogs handler fails with a 500 carrying the `NameError`
for the unimported name `User`, so the documented list of dialog records
is never returned for a non-empty dialog list. -/
theorem c9_dialogs_name_error (active : List (List Char)) (req : GetDialogsReq)
    (iter : Int → Except IterErr (List DialogEnt)) (d : DialogEnt) (ds : List DialogEnt)
    (hacc : req.account ∈ active) (hiter : iter req.limit = .ok (d :: ds)) :
    dialogs active req iter = .err 500 (.caught .nameErrorUser) := by
  simp only [dialogs, if_pos hacc, hiter]

/-- C9 witness: a concrete account with one dialog. -/
theorem c9_witness :
    dialogs [['a']] (mkGetDialogsReq ['a'] none none)
      (fun _ => Except.ok [⟨1, ['t'], none⟩]) = .err 500 (.caught .nameErrorUser) :=
  c9_dialogs_name_error [['a']] (mkGetDialogsReq ['a'] none none)
    (fun _ => Except.ok [⟨1, ['t'], none⟩]) ⟨1, ['t'], none⟩ [] (by decide) rfl

/-- C10: the integer branch of the normalization raises `ValueError`
exactly at `-100` (for `-100`, `str(target)[4:]` is the empty string and
`int("")` fails) and succeeds for every other integer; the request then
fails with HTTP 500 via the catch-all; and the STRING `"-100"` is instead
parsed by the second string branch and returned as the integer `-100`. -/
theorem c10_minus100_value_error :
    (∀ n : Int, normalize (Tgt.i n) = none ↔ n = -100) ∧
    normalize (Tgt.s "-100".data) = some (Tgt.i (-100)) ∧
    export_members [['a']] ⟨['a'], none, some (-100)⟩ (fun _ => Except.ok []) =
      .err 500 (.caught .valueErrorInt) := by
  exact ⟨normalize_int_none_iff, by decide, by decide⟩

end TelegramBot
